import Mathlib

/-!
Verification development for the Neura-X Guardian Angel backend.

This file gives a shallow embedding, in Lean 4, of the state-bearing parts of
the repository — the conversation-context cache, the voice confidence gate,
the provider-fallback orchestration in utils/aiService.js, the storage
failover combinator in utils/jsonStorage.js, the booking validator in
models/BookingModel.js, and the booking update/cancel paths of
routes/booking.js — and proves or refutes the frozen behavioural claims
about them.

Modelling conventions:
- JavaScript exceptions are modelled with Except String; a thrown Error
  carries its message string.
- External I/O (provider HTTP calls, the web-search fetch, file reads and
  writes, the document store) is modelled by explicit oracle arguments of
  type Except String _ describing the outcome of each call; the surrounding
  control flow is translated from the source.
- JavaScript number truthiness (0 is falsy) is modelled on Rat by comparison
  with 0; string truthiness by comparison with the empty string.
- Date parsing is modelled for calendar-date strings in the zero-padded
  YYYY-MM-DD form (the only form the system itself produces and the form its
  clients send); any other string is treated as unparseable, and the server
  clock is taken to be in UTC, so local midnight coincides with the UTC
  midnight produced by parsing a date-only string.
-/

namespace NeuraX

/-- One message of a conversation context: a role, a content string, and the
optional type tag that the voice paths attach (routes/chat.js pushes plain
role/content records, the voice paths push records with type voice). -/
structure Msg where
  role : String
  content : String
  mtype : Option String
deriving DecidableEq

/-- Last-n-elements window of a list, as produced by the JavaScript
slice(-n) on an array of length at least n (and the whole list otherwise). -/
def takeLast (l : List α) (n : Nat) : List α :=
  l.drop (l.length - n)

/-- One append operation of routes/chat.js (and of the voice paths): push the
user turn and the assistant turn, then truncate to the most recent 20
messages when the length exceeds 20 (context.push(u, a); if
(context.length > 20) context = context.slice(-20)). -/
def appendPair (ctx : List Msg) (u a : Msg) : List Msg :=
  if (ctx ++ [u, a]).length > 20 then takeLast (ctx ++ [u, a]) 20
  else ctx ++ [u, a]

/-- The stored context after a sequence of append operations starting from
the empty context of an unknown key. -/
def runAppends (ps : List (Msg × Msg)) : List Msg :=
  ps.foldl (fun ctx p => appendPair ctx p.1 p.2) []

/-- Flattening of a sequence of (user, assistant) pairs into the full stream
of appended messages. -/
def flat2 (ps : List (Msg × Msg)) : List Msg :=
  ps.foldr (fun p acc => p.1 :: p.2 :: acc) []

/-! Voice confidence gate (socketHandler.handleVoiceCommand, lines 226-298,
and the voice/process route of routes/voice.js, lines 12-77). The reply the
provider chain would produce is supplied as an oracle argument, together with
a flag in the outcome recording whether the chain was invoked at all. -/

/-- Fixed low-confidence reply used by both voice paths. -/
def repeatPrompt : String := "I didn\x27t quite catch that. Could you please repeat?"

/-- The gate condition `confidence && confidence < 0.7` of both voice paths:
an absent confidence is undefined (falsy) and the number 0 is falsy in
JavaScript, so the branch is taken exactly for a present, nonzero confidence
below 0.7. -/
def confGate (confidence : Option ℚ) : Bool :=
  match confidence with
  | none => false
  | some c => (c != 0) && decide (c < 7/10)

/-- Observable outcome of one voice input: the reply text, the
requiresRepeat flag of the emitted response, whether the provider chain was
invoked, and the stored voice context after the handler returns. -/
structure VoiceOutcome where
  response : String
  requiresRepeat : Bool
  providerCalled : Bool
  newContext : List Msg
deriving DecidableEq

/-- Socket voice-command handler: gate first; otherwise call the provider
chain, then append the (user, assistant) pair to the voice context and
truncate it to the most recent 20 messages. -/
def handleVoiceCommand (confidence : Option ℚ) (transcript : String)
    (context : List Msg) (aiResponse : String) : VoiceOutcome :=
  if confGate confidence then
    ⟨repeatPrompt, true, false, context⟩
  else
    ⟨aiResponse, false, true,
      appendPair context ⟨"user", transcript, some ("voice")⟩
        ⟨"assistant", aiResponse, some ("voice")⟩⟩

/-- The voice/process route handler: identical gate, provider call and
context update as the socket path. -/
def voiceProcess (confidence : Option ℚ) (transcript : String)
    (context : List Msg) (aiResponse : String) : VoiceOutcome :=
  if confGate confidence then
    ⟨repeatPrompt, true, false, context⟩
  else
    ⟨aiResponse, false, true,
      appendPair context ⟨"user", transcript, some ("voice")⟩
        ⟨"assistant", aiResponse, some ("voice")⟩⟩

/-! Provider chain of utils/aiService.js. The three external calls
(callDeepSeek, callOpenAI, webSearch) are modelled by oracle arguments of
type Except String String: ok r means the call returns the reply text r,
error e means it throws an Error whose message is e. A successful call is
wrapped into a result record carrying the source tag the code attaches
(deepseek, openai, web_search). -/

/-- Result record of processMessage: the reply text and its source tag. -/
structure AiResult where
  response : String
  source : String
deriving DecidableEq

/-- Availability flags set in the AIService constructor from the presence of
the two API keys. -/
structure ProviderConfig where
  deepseekAvailable : Bool
  openaiAvailable : Bool
deriving DecidableEq

/-- Fixed apology returned when every tier fails. -/
def apologyMsg : String :=
  "I\x27m having trouble processing your request right now. Please try again later."

/-- Character-list prefix test used to express substring occurrence. -/
def leadsWith : List Char → List Char → Bool
  | [], _ => true
  | _ :: _, [] => false
  | a :: as, b :: bs => (a == b) && leadsWith as bs

/-- Occurrence of a needle anywhere in a haystack, over character lists. -/
def subOccurs (needle : List Char) : List Char → Bool
  | [] => needle.isEmpty
  | c :: rest => leadsWith needle (c :: rest) || subOccurs needle rest

/-- The check error.message.includes(\x27DeepSeek\x27) of the catch block:
true exactly when the message contains the substring DeepSeek. -/
def mentionsDeepSeek (msg : String) : Bool :=
  subOccurs ("DeepSeek".data) (msg.data)

/-- processMessage (utils/aiService.js lines 22-61): try DeepSeek when
configured, else OpenAI when configured, else webSearch; in the catch block,
retry OpenAI only when it is configured and the thrown message mentions
DeepSeek, then fall back to webSearch, and if that also throws return the
fixed apology tagged error. The same web oracle models both webSearch call
sites. -/
def processMessage (cfg : ProviderConfig)
    (deepseekCall openaiCall webCall : Except String String) :
    Except String AiResult :=
  let tryBody : Except String AiResult :=
    if cfg.deepseekAvailable then
      deepseekCall.map (fun r => ⟨r, "deepseek"⟩)
    else if cfg.openaiAvailable then
      openaiCall.map (fun r => ⟨r, "openai"⟩)
    else
      webCall.map (fun r => ⟨r, "web_search"⟩)
  match tryBody with
  | .ok r => .ok r
  | .error e =>
    let openaiRetry : Option AiResult :=
      if cfg.openaiAvailable && mentionsDeepSeek e then
        match openaiCall with
        | .ok r => some ⟨r, "openai"⟩
        | .error _ => none
      else none
    match openaiRetry with
    | some r => .ok r
    | none =>
      match webCall with
      | .ok r => .ok ⟨r, "web_search"⟩
      | .error _ => .ok ⟨apologyMsg, "error"⟩

/-! Streaming (utils/aiService.js streamResponse, lines 198-245, consumed by
the chat/stream route of routes/chat.js, lines 66-131). A callback event is
a pair (content, isComplete); the route accumulates the content of the
partial events and writes frames on a server-sent event stream. -/

/-- Error text of the streaming catch block. -/
def streamErrorMsg : String :=
  "Sorry, I encountered an error while processing your request."

/-- streamResponse as the sequence of callback invocations it performs.
chunks lists the delta contents the provider stream yields before it either
ends normally or throws (streamFails); webCall models the webSearch call of
the no-provider branch. Empty delta contents are skipped by the
`if (content)` truthiness test. -/
def streamResponse (dsAvail oaAvail : Bool) (chunks : List String)
    (streamFails : Bool) (webCall : Except String String) :
    List (String × Bool) :=
  if !dsAvail && !oaAvail then
    match webCall with
    | .ok r => [(r, true)]
    | .error _ => [(streamErrorMsg, true)]
  else
    (chunks.filter (fun c => c ≠ "")).map (fun c => (c, false)) ++
      (if streamFails then [(streamErrorMsg, true)] else [("", true)])

/-- One outbound frame of the chat/stream route. -/
inductive Frame where
  | chunk (content : String)
  | complete (fullResponse : String)
deriving DecidableEq

/-- The chat/stream route callback: partial events are appended to the
accumulated fullResponse and forwarded as chunk frames; the terminal event
emits a complete frame carrying the accumulated fullResponse (the terminal
event content itself is not accumulated). -/
def streamEndpointFrames (events : List (String × Bool)) : List Frame :=
  (events.foldl
    (fun (acc : String × List Frame) e =>
      if e.2 then (acc.1, acc.2 ++ [Frame.complete acc.1])
      else (acc.1 ++ e.1, acc.2 ++ [Frame.chunk e.1]))
    ("", [])).2

/-! Storage gateway (utils/jsonStorage.js useStorage, lines 32-53) and the
flat-file booking store. The cached health flag is isMongoConnected(); the
outcome of the chosen backend call is an oracle of type Except String.
useStorage returns the operation result together with the list of backends
attempted, in order. -/

/-- The two storage backends. -/
inductive Backend where
  | durable
  | flat
deriving DecidableEq

/-- useStorage: when the health flag is set, attempt the durable backend,
and on a thrown error retry once against the flat-file backend (the flag is
cached, so it is still set inside the catch block); when the flag is clear,
use the flat-file backend directly, and a throw there yields null with no
further retry. -/
def useStorage (connected : Bool) (mongoOp jsonOp : Except String α) :
    Option α × List Backend :=
  if connected then
    match mongoOp with
    | .ok v => (some v, [Backend.durable])
    | .error _ =>
      match jsonOp with
      | .ok v => (some v, [Backend.durable, Backend.flat])
      | .error _ => (none, [Backend.durable, Backend.flat])
  else
    match jsonOp with
    | .ok v => (some v, [Backend.flat])
    | .error _ => (none, [Backend.flat])

/-- Stored booking record, restricted to the fields the storage-facing
claims inspect; the remaining payload fields merge under updates in exactly
the same field-by-field way. -/
structure StoredBooking where
  bookingId : String
  userId : String
  status : String
  cancellationReason : Option String
  cancelledAt : Option String
  updatedAt : String
deriving DecidableEq

/-- Flat-file saveBooking (_json_saveBooking): push the booking onto the
array read from the bookings file and write it back, returning the booking;
the file state is the list of bookings. -/
def jsonSaveBooking (file : List StoredBooking) (b : StoredBooking) :
    List StoredBooking × Option StoredBooking :=
  (file ++ [b], some b)

/-- getBooking of utils/jsonStorage.js (lines 139-147): find the first
booking with the given bookingId in the bookings file. -/
def getBookingJson (file : List StoredBooking) (id : String) :
    Option StoredBooking :=
  match file with
  | [] => none
  | b :: rest => if b.bookingId == id then some b else getBookingJson rest id

/-! Booking updates (utils/jsonStorage.js _json_updateBooking, lines
186-207) and the cancellation route (routes/booking.js DELETE, lines
176-223). A partial update is a record of optional fields; the JavaScript
spread of the update over the stored booking takes the update value for
every key present in the update, including bookingId and userId. -/

/-- Partial update record: a present field overwrites the stored field, as
the spread operator does. -/
structure BookingUpdate where
  bookingId : Option String
  userId : Option String
  status : Option String
  cancellationReason : Option String
  cancelledAt : Option String
deriving DecidableEq

/-- The merge of one update into one stored booking,
bookings[i] = spread of old with updates plus updatedAt = now. -/
def applyUpdate (b : StoredBooking) (u : BookingUpdate) (now : String) :
    StoredBooking :=
  { bookingId := u.bookingId.getD b.bookingId
    userId := u.userId.getD b.userId
    status := u.status.getD b.status
    cancellationReason :=
      match u.cancellationReason with
      | some r => some r
      | none => b.cancellationReason
    cancelledAt :=
      match u.cancelledAt with
      | some t => some t
      | none => b.cancelledAt
    updatedAt := now }

/-- _json_updateBooking: find the first booking with the given id; when
absent return null and leave the file unchanged, otherwise replace that
entry by the merged record and return it. -/
def jsonUpdateBooking (bs : List StoredBooking) (id : String)
    (u : BookingUpdate) (now : String) :
    Option StoredBooking × List StoredBooking :=
  match bs with
  | [] => (none, [])
  | b :: rest =>
    if b.bookingId == id then
      (some (applyUpdate b u now), applyUpdate b u now :: rest)
    else
      let r := jsonUpdateBooking rest id u now
      (r.1, b :: r.2)

/-- Outcome of the DELETE booking route. -/
inductive CancelOutcome where
  | notFound
  | forbidden
  | failedSave
  | cancelled (b : StoredBooking)
deriving DecidableEq

/-- The update the DELETE route passes to updateBooking: status cancelled,
the request reason, and a cancellation timestamp taken at this call. -/
def cancelUpdate (reason now : String) : BookingUpdate :=
  ⟨none, none, some ("cancelled"), some reason, some now⟩

/-- The DELETE booking route (routes/booking.js lines 176-223): look the
booking up, reject when absent or when the requesting user is not the owner,
otherwise update it to cancelled with reason and timestamp (a status
transition, not a hard delete). -/
def deleteBookingRoute (bs : List StoredBooking)
    (id uid reason now : String) : CancelOutcome × List StoredBooking :=
  match getBookingJson bs id with
  | none => (CancelOutcome.notFound, bs)
  | some b =>
    if b.userId == uid then
      let r := jsonUpdateBooking bs id (cancelUpdate reason now) now
      match r.1 with
      | some nb => (CancelOutcome.cancelled nb, r.2)
      | none => (CancelOutcome.failedSave, r.2)
    else (CancelOutcome.forbidden, bs)

/-! Booking validation (models/BookingModel.js). JavaScript Date parsing is
modelled for calendar-date strings in zero-padded YYYY-MM-DD form; the
comparison against local midnight of the current day is a comparison of
calendar days under the UTC-server convention, carried by a numeric key that
orders (year, month, day) triples lexicographically. String helpers (trim,
toLowerCase, number printing) are given as structural recursions over the
character list so that concrete inputs evaluate inside the kernel. -/

/-- Character for one decimal digit. -/
def digitChar (n : Nat) : Char := Char.ofNat (48 + n)

/-- Decimal printing for the small numbers (prices excluded) that appear in
duration strings; three digits suffice. -/
def natStr (n : Nat) : String :=
  if n < 10 then ⟨[digitChar n]⟩
  else if n < 100 then ⟨[digitChar (n / 10), digitChar (n % 10)]⟩
  else ⟨[digitChar (n / 100), digitChar (n / 10 % 10), digitChar (n % 10)]⟩

/-- Lowercasing of one ASCII character. -/
def charLower (c : Char) : Char :=
  if 65 ≤ c.toNat && c.toNat ≤ 90 then Char.ofNat (c.toNat + 32) else c

/-- String toLowerCase over the character list. -/
def lowerStr (s : String) : String := ⟨s.data.map charLower⟩

/-- Leading-whitespace removal for the trim model. -/
def dropLeadWS : List Char → List Char
  | [] => []
  | c :: rest =>
    if c == ' ' || c == '\t' || c == '\n' || c == '\r' then dropLeadWS rest
    else c :: rest

/-- String trim: whitespace removed from both ends. -/
def trimStr (s : String) : String :=
  ⟨(dropLeadWS ((dropLeadWS s.data.reverse).reverse))⟩

/-- JavaScript string truthiness of an optional field: absent and empty are
both falsy. -/
def truthy : Option String → Bool
  | none => false
  | some s => s != ""

/-- The x || dflt defaulting idiom on an optional string field. -/
def orDefault (o : Option String) (dflt : String) : String :=
  match o with
  | some s => if s == "" then dflt else s
  | none => dflt

/-- Raw passenger object of a booking request. -/
structure Passenger where
  name : Option String
  age : Option Int
  id : Option String
deriving DecidableEq

/-- Passenger record produced by validatePassengers. -/
structure ValidatedPassenger where
  name : String
  age : Int
  type : String
  id : Option String
deriving DecidableEq

/-- Raw booking request body. The JavaScript fields from, to and class are
named fromCity, toCity and classField here because those words are reserved
in Lean; every other field keeps its source name. -/
structure BookingData where
  type : Option String
  fromCity : Option String
  toCity : Option String
  date : Option String
  time : Option String
  departureDate : Option String
  returnDate : Option String
  passengers : Option (List Passenger)
  classField : Option String
  seatType : Option String
  operatorPreference : Option String
  trainType : Option String
  seatPreference : Option String
  airlinePreference : Option String
  mealPreference : Option String
deriving DecidableEq

/-- Truthiness of the field a required-field name denotes, as data[field]
reads it; a present but empty passenger array is truthy in JavaScript, so
only absence fails that check. -/
def fieldTruthy (d : BookingData) (f : String) : Bool :=
  if f == "from" then truthy d.fromCity
  else if f == "to" then truthy d.toCity
  else if f == "date" then truthy d.date
  else if f == "time" then truthy d.time
  else if f == "departureDate" then truthy d.departureDate
  else if f == "passengers" then d.passengers.isSome
  else if f == "class" then truthy d.classField
  else false

/-- checkRequiredFields: throw on the first falsy required field. -/
def checkRequiredFields (d : BookingData) : List String → Except String Unit
  | [] => .ok ()
  | f :: rest =>
    if fieldTruthy d f then checkRequiredFields d rest
    else .error ("Missing required field: " ++ f)

/-- All-digit parse of a character group of a date string. -/
def parseNatDigits (cs : List Char) : Option Nat :=
  if cs.isEmpty then none
  else if cs.all Char.isDigit then
    some (cs.foldl (fun n c => n * 10 + (c.toNat - 48)) 0)
  else none

/-- Split of a character list at dashes. -/
def splitDash : List Char → List (List Char)
  | [] => [[]]
  | c :: rest =>
    if c == '-' then [] :: splitDash rest
    else
      match splitDash rest with
      | [] => [[c]]
      | g :: gs => (c :: g) :: gs

/-- Gregorian leap-year rule. -/
def isLeap (y : Nat) : Bool := (y % 4 == 0 && y % 100 != 0) || (y % 400 == 0)

/-- Days of a month, for the range check the ISO date parser performs. -/
def daysInMonth (y m : Nat) : Nat :=
  if m == 2 then (if isLeap y then 29 else 28)
  else if m == 4 || m == 6 || m == 9 || m == 11 then 30
  else 31

/-- Calendar-date parse of a YYYY-MM-DD string: three dash-separated all-
digit groups of widths 4, 2, 2 with a valid month and day-of-month; any
other string is an invalid date. -/
def parseISODate (s : String) : Option (Nat × Nat × Nat) :=
  match splitDash s.data with
  | [ys, ms, ds] =>
    if ys.length == 4 && ms.length == 2 && ds.length == 2 then
      match parseNatDigits ys, parseNatDigits ms, parseNatDigits ds with
      | some y, some m, some d =>
        if 1 ≤ m && m ≤ 12 && 1 ≤ d && d ≤ daysInMonth y m then
          some (y, m, d)
        else none
      | _, _, _ => none
    else none
  | _ => none

/-- Order-preserving numeric key of a calendar day: strictly monotone in the
lexicographic order of (year, month, day). -/
def dateKey (y m d : Nat) : Nat := y * 1000 + m * 50 + d

/-- Zero-padded two-digit group of the normalized date. -/
def pad2 (n : Nat) : String := ⟨[digitChar (n / 10), digitChar (n % 10)]⟩

/-- Zero-padded four-digit year of the normalized date. -/
def pad4 (n : Nat) : String :=
  ⟨[digitChar (n / 1000), digitChar (n / 100 % 10),
    digitChar (n / 10 % 10), digitChar (n % 10)]⟩

/-- The YYYY-MM-DD normalization that the toISOString split produces. -/
def formatDate (y m d : Nat) : String :=
  pad4 y ++ "-" ++ pad2 m ++ "-" ++ pad2 d

/-- validateDate (models/BookingModel.js lines 110-124): unparseable strings
throw an invalid-format error, a day strictly before the current day throws
the past-date error, and an accepted date is returned in YYYY-MM-DD form. -/
def validateDate (todayKey : Nat) (s : String) : Except String String :=
  match parseISODate s with
  | none => .error ("Invalid date format: " ++ s)
  | some (y, m, d) =>
    if dateKey y m d < todayKey then
      .error ("Booking date cannot be in the past")
    else .ok (formatDate y m d)

/-- Age class of a passenger. -/
def getPassengerType (age : Int) : String :=
  if age < 2 then "infant"
  else if age < 12 then "child"
  else if age ≥ 60 then "senior"
  else "adult"

/-- Validation of one passenger: name and age must be truthy. -/
def validatePassenger (p : Passenger) : Except String ValidatedPassenger :=
  let ageOk : Bool := match p.age with | none => false | some a => a != 0
  if truthy p.name && ageOk then
    .ok ⟨trimStr (p.name.getD ""), p.age.getD 0,
      getPassengerType (p.age.getD 0),
      match p.id with
      | none => none
      | some s => if s == "" then none else some s⟩
  else .error ("Each passenger must have name and age")

/-- validatePassengers: at least one passenger, each validated in order. -/
def validatePassengers (ps : List Passenger) :
    Except String (List ValidatedPassenger) :=
  if ps.isEmpty then .error ("At least one passenger is required")
  else ps.mapM validatePassenger

/-- validateTrainClass against the fixed class list, lowercased. -/
def validateTrainClass (c : String) : Except String String :=
  if ["sleeper", "3ac", "2ac", "1ac", "cc", "ec"].contains (lowerStr c) then
    .ok (lowerStr c)
  else .error ("Invalid train class: " ++ c)

/-- validateFlightClass against the fixed class list, lowercased. -/
def validateFlightClass (c : String) : Except String String :=
  if ["economy", "premium-economy", "business", "first"].contains
      (lowerStr c) then
    .ok (lowerStr c)
  else .error ("Invalid flight class: " ++ c)

/-- Distance multiplier of the fixed city-pair table, in tenths (1.5 is 15);
unknown pairs give 1.0. -/
def distMult10 (fromC toC : String) : Nat :=
  let key := lowerStr fromC ++ "-" ++ lowerStr toC
  if key == "delhi-mumbai" || key == "mumbai-delhi" then 15
  else if key == "delhi-bangalore" || key == "bangalore-delhi" then 20
  else if key == "mumbai-bangalore" || key == "bangalore-mumbai" then 12
  else if key == "delhi-kolkata" || key == "kolkata-delhi" then 18
  else if key == "mumbai-kolkata" || key == "kolkata-mumbai" then 22
  else if key == "bangalore-kolkata" || key == "kolkata-bangalore" then 25
  else 10

/-- Math.round of x divided by 10, for quantities scaled by one decimal
factor; exact for the decimal-valued products of the price tables. -/
def jsRound10 (x : Nat) : Nat := (x + 5) / 10

/-- Math.round of x divided by 100, for quantities scaled by two decimal
factors. -/
def jsRound100 (x : Nat) : Nat := (x + 50) / 100

/-- calculateBusPrice: 500 times distance multiplier times passenger count
times 1.5 for a premium seat, rounded. -/
def calculateBusPrice (d : BookingData) : Nat :=
  let dm := distMult10 (d.fromCity.getD "") (d.toCity.getD "")
  let count := (d.passengers.getD []).length
  let sm := if d.seatType == some ("premium") then 15 else 10
  jsRound100 (500 * dm * count * sm)

/-- Base fare of the raw train class (unknown classes give 500). -/
def trainBase (c : Option String) : Nat :=
  match c with
  | some s =>
    if s == "sleeper" then 300
    else if s == "3ac" then 800
    else if s == "2ac" then 1200
    else if s == "1ac" then 2000
    else if s == "cc" then 600
    else if s == "ec" then 400
    else 500
  | none => 500

/-- calculateTrainPrice: class base fare times distance multiplier times
passenger count, rounded. -/
def calculateTrainPrice (d : BookingData) : Nat :=
  let dm := distMult10 (d.fromCity.getD "") (d.toCity.getD "")
  let count := (d.passengers.getD []).length
  jsRound10 (trainBase d.classField * dm * count)

/-- Base fare of the raw flight class (unknown classes give 5000). -/
def flightBase (c : Option String) : Nat :=
  match c with
  | some s =>
    if s == "economy" then 5000
    else if s == "premium-economy" then 8000
    else if s == "business" then 15000
    else if s == "first" then 25000
    else 5000
  | none => 5000

/-- calculateFlightPrice: class base fare times distance multiplier times
passenger count times 1.8 for a round trip, rounded. -/
def calculateFlightPrice (d : BookingData) : Nat :=
  let dm := distMult10 (d.fromCity.getD "") (d.toCity.getD "")
  let count := (d.passengers.getD []).length
  let tm := if truthy d.returnDate then 18 else 10
  jsRound100 (flightBase d.classField * dm * count * tm)

/-- estimateBusDuration: distance multiplier times 8 hours, rounded. -/
def estimateBusDuration (d : BookingData) : String :=
  natStr (jsRound10
    (distMult10 (d.fromCity.getD "") (d.toCity.getD "") * 8)) ++ " hours"

/-- estimateTrainDuration: distance multiplier times 6 hours, times 0.8 for
the raw express train type, rounded. -/
def estimateTrainDuration (d : BookingData) : String :=
  let tm := if d.trainType == some ("express") then 8 else 10
  natStr (jsRound100
    (distMult10 (d.fromCity.getD "") (d.toCity.getD "") * 6 * tm)) ++ " hours"

/-- estimateFlightDuration: distance multiplier times 1.5 hours, in rounded
minutes (exactly 9 times the scaled multiplier). -/
def estimateFlightDuration (d : BookingData) : String :=
  natStr (distMult10 (d.fromCity.getD "") (d.toCity.getD "") * 9)
    ++ " minutes"

/-- Validated booking returned by the per-type validators; fields a type
does not produce are none. -/
structure ValidatedBooking where
  type : String
  fromCity : String
  toCity : String
  date : Option String
  time : Option String
  departureDate : Option String
  returnDate : Option String
  passengers : List ValidatedPassenger
  seatType : Option String
  operatorPreference : Option String
  classField : Option String
  trainType : Option String
  seatPreference : Option String
  airlinePreference : Option String
  mealPreference : Option String
  tripType : Option String
  estimatedPrice : Nat
  duration : String
deriving DecidableEq

/-- validateBusBooking: required fields from, to, date, time, passengers
(seatType and operatorPreference are optional with defaults), then the
result object in literal order — the date check runs before the passenger
check. -/
def validateBusBooking (todayKey : Nat) (d : BookingData) :
    Except String ValidatedBooking := do
  let _ ← checkRequiredFields d ["from", "to", "date", "time", "passengers"]
  let vDate ← validateDate todayKey (d.date.getD "")
  let vPass ← validatePassengers (d.passengers.getD [])
  .ok { type := "bus"
        fromCity := trimStr (d.fromCity.getD "")
        toCity := trimStr (d.toCity.getD "")
        date := some vDate
        time := some (trimStr (d.time.getD ""))
        departureDate := none
        returnDate := none
        passengers := vPass
        seatType := some (orDefault d.seatType ("standard"))
        operatorPreference := some (orDefault d.operatorPreference ("any"))
        classField := none
        trainType := none
        seatPreference := none
        airlinePreference := none
        mealPreference := none
        tripType := none
        estimatedPrice := calculateBusPrice d
        duration := estimateBusDuration d }

/-- validateTrainBooking: required fields from, to, date, time, passengers,
class; trainType and seatPreference default. -/
def validateTrainBooking (todayKey : Nat) (d : BookingData) :
    Except String ValidatedBooking := do
  let _ ← checkRequiredFields d
    ["from", "to", "date", "time", "passengers", "class"]
  let vDate ← validateDate todayKey (d.date.getD "")
  let vPass ← validatePassengers (d.passengers.getD [])
  let vClass ← validateTrainClass (d.classField.getD "")
  .ok { type := "train"
        fromCity := trimStr (d.fromCity.getD "")
        toCity := trimStr (d.toCity.getD "")
        date := some vDate
        time := some (trimStr (d.time.getD ""))
        departureDate := none
        returnDate := none
        passengers := vPass
        seatType := none
        operatorPreference := none
        classField := some vClass
        trainType := some (orDefault d.trainType ("express"))
        seatPreference := some (orDefault d.seatPreference ("any"))
        airlinePreference := none
        mealPreference := none
        tripType := none
        estimatedPrice := calculateTrainPrice d
        duration := estimateTrainDuration d }

/-- validateFlightBooking: required fields from, to, departureDate,
passengers, class; returnDate is validated only when truthy and drives the
trip type and price multiplier. -/
def validateFlightBooking (todayKey : Nat) (d : BookingData) :
    Except String ValidatedBooking := do
  let _ ← checkRequiredFields d
    ["from", "to", "departureDate", "passengers", "class"]
  let vDep ← validateDate todayKey (d.departureDate.getD "")
  let vRet ← (if truthy d.returnDate then
      (validateDate todayKey (d.returnDate.getD "")).map some
    else .ok none)
  let vPass ← validatePassengers (d.passengers.getD [])
  let vClass ← validateFlightClass (d.classField.getD "")
  .ok { type := "flight"
        fromCity := trimStr (d.fromCity.getD "")
        toCity := trimStr (d.toCity.getD "")
        date := none
        time := none
        departureDate := some vDep
        returnDate := vRet
        passengers := vPass
        seatType := none
        operatorPreference := none
        classField := some vClass
        trainType := none
        seatPreference := none
        airlinePreference := some (orDefault d.airlinePreference ("any"))
        mealPreference := some (orDefault d.mealPreference ("standard"))
        tripType := some (if truthy d.returnDate then "round-trip"
          else "one-way")
        estimatedPrice := calculateFlightPrice d
        duration := estimateFlightDuration d }

/-- validateBooking: dispatch on the declared type; unknown or absent types
throw. -/
def validateBooking (todayKey : Nat) (d : BookingData) :
    Except String ValidatedBooking :=
  match d.type with
  | some t =>
    if t == "bus" then validateBusBooking todayKey d
    else if t == "train" then validateTrainBooking todayKey d
    else if t == "flight" then validateFlightBooking todayKey d
    else .error ("Invalid booking type: " ++ t)
  | none => .error ("Invalid booking type: undefined")

/-- Concrete bus request with every code-required field present and no
seatType. -/
def busNoSeat : BookingData :=
  { type := some ("bus")
    fromCity := some ("Delhi")
    toCity := some ("Mumbai")
    date := some ("2099-01-01")
    time := some ("10:00")
    departureDate := none
    returnDate := none
    passengers := some [⟨some ("User"), some 30, none⟩]
    classField := none
    seatType := none
    operatorPreference := none
    trainType := none
    seatPreference := none
    airlinePreference := none
    mealPreference := none }

/-- Concrete flight request lacking departureDate only. -/
def flightNoDep : BookingData :=
  { type := some ("flight")
    fromCity := some ("Delhi")
    toCity := some ("Mumbai")
    date := none
    time := none
    departureDate := none
    returnDate := none
    passengers := some [⟨some ("User"), some 30, none⟩]
    classField := some ("economy")
    seatType := none
    operatorPreference := none
    trainType := none
    seatPreference := none
    airlinePreference := none
    mealPreference := none }

/-- Concrete bus request lacking time only. -/
def busNoTime : BookingData :=
  { type := some ("bus")
    fromCity := some ("Delhi")
    toCity := some ("Mumbai")
    date := some ("2099-01-01")
    time := none
    departureDate := none
    returnDate := none
    passengers := some [⟨some ("User"), some 30, none⟩]
    classField := none
    seatType := none
    operatorPreference := none
    trainType := none
    seatPreference := none
    airlinePreference := none
    mealPreference := none }

/-- Concrete bus request, valid except that its date lies in the past
relative to the 2026-10-11 clock. -/
def busPastDate : BookingData :=
  { type := some ("bus")
    fromCity := some ("Delhi")
    toCity := some ("Mumbai")
    date := some ("2020-01-01")
    time := some ("10:00")
    departureDate := none
    returnDate := none
    passengers := some [⟨some ("User"), some 30, none⟩]
    classField := none
    seatType := none
    operatorPreference := none
    trainType := none
    seatPreference := none
    airlinePreference := none
    mealPreference := none }

theorem flat2_cons (p : Msg × Msg) (ps : List (Msg × Msg)) :
    flat2 (p :: ps) = p.1 :: p.2 :: flat2 ps := rfl

theorem flat2_append (ps qs : List (Msg × Msg)) :
    flat2 (ps ++ qs) = flat2 ps ++ flat2 qs := by
  induction ps with
  | nil => rfl
  | cons p ps ih => simp [flat2_cons, ih]

theorem flat2_length (ps : List (Msg × Msg)) :
    (flat2 ps).length = 2 * ps.length := by
  induction ps with
  | nil => rfl
  | cons p ps ih => simp [flat2_cons, ih]; omega

theorem flat2_drop (ps : List (Msg × Msg)) (k : Nat) :
    flat2 (ps.drop k) = (flat2 ps).drop (2 * k) := by
  induction ps generalizing k with
  | nil => simp [flat2]
  | cons p ps ih =>
    cases k with
    | zero => rfl
    | succ k =>
      simp only [List.drop_succ_cons, flat2_cons, ih]
      have h2 : 2 * (k + 1) = (2 * k + 1) + 1 := by omega
      simp [h2, List.drop_succ_cons]

theorem runAppends_append_one (ps : List (Msg × Msg)) (p : Msg × Msg) :
    runAppends (ps ++ [p]) = appendPair (runAppends ps) p.1 p.2 := by
  simp [runAppends, List.foldl_append]

/-- Invariant of the append loop: the stored context is exactly the
most-recent-20 window of the full appended stream. -/
theorem runAppends_eq_takeLast (ps : List (Msg × Msg)) :
    runAppends ps = takeLast (flat2 ps) 20 := by
  induction ps using List.reverseRecOn with
  | nil => rfl
  | append_singleton ps p ih =>
    rw [runAppends_append_one, ih]
    have hlen : (flat2 ps).length = 2 * ps.length := flat2_length ps
    set F := flat2 ps with hF
    have hfl : flat2 (ps ++ [p]) = F ++ [p.1, p.2] := by
      rw [flat2_append]; rfl
    rw [hfl]
    have hlen3 : (F ++ [p.1, p.2]).length = F.length + 2 := by simp
    by_cases h : F.length ≤ 18
    · have h0 : F.length - 20 = 0 := by omega
      have hx : takeLast F 20 = F := by simp [takeLast, h0]
      have hnot : ¬ (F ++ [p.1, p.2]).length > 20 := by omega
      rw [hx]
      simp only [appendPair]
      rw [if_neg hnot]
      show _ = (F ++ [p.1, p.2]).drop ((F ++ [p.1, p.2]).length - 20)
      rw [hlen3]
      rw [show F.length + 2 - 20 = 0 from by omega]
      rfl
    · -- F has even length, hence length at least 20 here
      have h20 : 20 ≤ F.length := by omega
      have hxlen : (takeLast F 20).length = 20 := by
        simp [takeLast]; omega
      have hclen : (takeLast F 20 ++ [p.1, p.2]).length = 22 := by
        simp [List.length_append, hxlen]
      have hgt : (takeLast F 20 ++ [p.1, p.2]).length > 20 := by omega
      have hdrop2 : (takeLast F 20 ++ [p.1, p.2]).drop 2
          = (takeLast F 20).drop 2 ++ [p.1, p.2] := by
        apply List.drop_append_of_le_length
        omega
      have hdd : (takeLast F 20).drop 2 = F.drop (F.length - 18) := by
        show (F.drop (F.length - 20)).drop 2 = _
        rw [List.drop_drop]
        congr 1
        omega
      have htarget : takeLast (F ++ [p.1, p.2]) 20
          = F.drop (F.length - 18) ++ [p.1, p.2] := by
        show (F ++ [p.1, p.2]).drop ((F ++ [p.1, p.2]).length - 20) = _
        rw [hlen3]
        rw [show F.length + 2 - 20 = F.length - 18 from by omega]
        exact List.drop_append_of_le_length (by omega)
      have hcut : takeLast (takeLast F 20 ++ [p.1, p.2]) 20
          = (takeLast F 20 ++ [p.1, p.2]).drop 2 := by
        show (takeLast F 20 ++ [p.1, p.2]).drop
            ((takeLast F 20 ++ [p.1, p.2]).length - 20) = _
        rw [hclen]
      simp only [appendPair]
      rw [if_pos hgt, hcut, hdrop2, hdd, htarget]

/-- C5: for every conversation key and every sequence of append operations
(each appending one user turn and one assistant turn together as a unit), the
stored context contains at most 20 messages, has even length, and is exactly
the most-recent window of the appended messages — equivalently, the
flattening of the most recent 10 appended pairs, so the window always
consists of complete (user, assistant) pairs and is never odd. -/
theorem conversation_cap_C5 (ps : List (Msg × Msg)) :
    (runAppends ps).length ≤ 20 ∧ (runAppends ps).length % 2 = 0 ∧
    runAppends ps = takeLast (flat2 ps) 20 ∧
    runAppends ps = flat2 (takeLast ps 10) := by
  have hmain := runAppends_eq_takeLast ps
  have hflen : (flat2 ps).length = 2 * ps.length := flat2_length ps
  have hlen : (runAppends ps).length = (flat2 ps).length - ((flat2 ps).length - 20) := by
    rw [hmain]; simp [takeLast]
  refine ⟨by omega, by omega, hmain, ?_⟩
  rw [hmain]
  show takeLast (flat2 ps) 20 = flat2 (ps.drop (ps.length - 10))
  rw [flat2_drop]
  show (flat2 ps).drop ((flat2 ps).length - 20) = _
  congr 1
  omega

/-- C1 (counterexample): a voice input carrying confidence 0 is below 0.7,
yet both handlers skip the gate (0 is falsy in the test
`confidence && confidence < 0.7`), invoke the provider chain, append to the
voice context, and do not set requiresRepeat. -/
theorem voice_gate_zero_cex_C1 :
    (0 : ℚ) < 7/10 ∧
    (handleVoiceCommand (some 0) ("hi") [] ("ok")).providerCalled = true ∧
    (handleVoiceCommand (some 0) ("hi") [] ("ok")).requiresRepeat = false ∧
    (handleVoiceCommand (some 0) ("hi") [] ("ok")).newContext ≠ [] ∧
    (voiceProcess (some 0) ("hi") [] ("ok")).providerCalled = true ∧
    (voiceProcess (some 0) ("hi") [] ("ok")).requiresRepeat = false ∧
    (voiceProcess (some 0) ("hi") [] ("ok")).newContext ≠ [] := by
  refine ⟨by norm_num, ?_, ?_, ?_, ?_, ?_, ?_⟩ <;>
    simp [handleVoiceCommand, voiceProcess, confGate, appendPair]

/-- C1 (amended): for every voice input whose confidence is present, nonzero
and below 0.7, both the socket handler and the voice/process route return the
fixed please-repeat reply with requiresRepeat set, do not invoke the provider
chain, and leave the voice context unchanged. -/
theorem voice_gate_C1 (c : ℚ) (hne : c ≠ 0) (hlt : c < 7/10)
    (transcript aiResponse : String) (context : List Msg) :
    handleVoiceCommand (some c) transcript context aiResponse
      = ⟨repeatPrompt, true, false, context⟩ ∧
    voiceProcess (some c) transcript context aiResponse
      = ⟨repeatPrompt, true, false, context⟩ := by
  have h1 : (c != 0) = true := by simp [bne_iff_ne, hne]
  have h2 : decide (c < 7/10) = true := decide_eq_true hlt
  have hg : confGate (some c) = true := by simp [confGate, h1, h2]
  constructor <;> simp [handleVoiceCommand, voiceProcess, hg]

theorem voice_gate_C1_witness :
    handleVoiceCommand (some ((1:ℚ)/2)) ("hello") [] ("ok")
      = ⟨repeatPrompt, true, false, []⟩ ∧
    voiceProcess (some ((1:ℚ)/2)) ("hello") [] ("ok")
      = ⟨repeatPrompt, true, false, []⟩ :=
  voice_gate_C1 ((1:ℚ)/2) (by norm_num) (by norm_num) ("hello") ("ok") []

/-- C2 (counterexample): with both providers configured, a primary call that
throws an error whose message does not contain the substring DeepSeek skips
the secondary entirely — the result comes from the web fallback, tagged
web_search, not openai, even though the secondary would have succeeded. -/
theorem provider_fallthrough_cex_C2 :
    processMessage ⟨true, true⟩ (Except.error ("network timeout"))
        (Except.ok ("secondary reply")) (Except.ok ("web reply"))
      = Except.ok ⟨"web reply", "web_search"⟩ ∧
    ("web_search" : String) ≠ "openai" := by
  constructor
  · rfl
  · decide

/-- C2 (amended): the fallthrough from the primary to the secondary provider
happens only when the thrown error message contains the substring DeepSeek;
in that case, with both providers configured and the secondary call
succeeding, the result is the secondary reply tagged openai. -/
theorem provider_fallthrough_C2 (e r : String) (webCall : Except String String)
    (hds : mentionsDeepSeek e = true) :
    processMessage ⟨true, true⟩ (Except.error e) (Except.ok r) webCall
      = Except.ok ⟨r, "openai"⟩ := by
  simp [processMessage, hds, Except.map]

theorem provider_fallthrough_C2_witness :
    processMessage ⟨true, true⟩ (Except.error ("DeepSeek request failed"))
        (Except.ok ("secondary reply")) (Except.ok ("web reply"))
      = Except.ok ⟨"secondary reply", "openai"⟩ :=
  provider_fallthrough_C2 ("DeepSeek request failed") ("secondary reply")
    (Except.ok ("web reply")) (by decide)

/-- C3: processMessage never propagates an exception — every combination of
availability flags and call outcomes produces an ok result — and when all
three calls fail the result is exactly the fixed apology tagged error. -/
theorem process_never_throws_C3 :
    (∀ (cfg : ProviderConfig) (ds oa web : Except String String),
      ∃ r, processMessage cfg ds oa web = Except.ok r) ∧
    (∀ (cfg : ProviderConfig) (e1 e2 e3 : String),
      processMessage cfg (Except.error e1) (Except.error e2) (Except.error e3)
        = Except.ok ⟨apologyMsg, "error"⟩) := by
  constructor
  · intro cfg ds oa web
    cases cfg with
    | mk dsA oaA =>
      cases dsA <;> cases oaA <;> cases ds <;> cases oa <;> cases web <;>
        simp [processMessage, Except.map] <;>
        split <;> simp
  · intro cfg e1 e2 e3
    cases cfg with
    | mk dsA oaA =>
      cases dsA <;> cases oaA <;>
        simp [processMessage, Except.map]

/-- C9: with no provider configured, streamResponse synthesizes a single
terminal callback carrying the web fallback text, but the route does not
accumulate terminal-event content, so the complete frame of the stream
endpoint carries the empty string instead of the fallback response — the
fallback text is lost. Evaluated at a concrete fallback reply. -/
theorem stream_complete_frame_C9 :
    streamResponse false false [] false
        (Except.ok ("Paris is the capital of France."))
      = [("Paris is the capital of France.", true)] ∧
    streamEndpointFrames
        (streamResponse false false [] false
          (Except.ok ("Paris is the capital of France.")))
      = [Frame.complete ""] ∧
    ("" : String) ≠ "Paris is the capital of France." := by
  refine ⟨rfl, rfl, by decide⟩

theorem getBookingJson_append_of_none (file l2 : List StoredBooking)
    (id : String) (h : getBookingJson file id = none) :
    getBookingJson (file ++ l2) id = getBookingJson l2 id := by
  induction file with
  | nil => rfl
  | cons x rest ih =>
    by_cases hx : (x.bookingId == id) = true
    · simp [getBookingJson, hx] at h
    · have hxf : (x.bookingId == id) = false := by simpa using hx
      have h2 : getBookingJson rest id = none := by
        simpa [getBookingJson, hxf] using h
      simpa [getBookingJson, hxf] using ih h2

/-- C4: when the health flag is set the durable backend is attempted first,
and a thrown error during that attempt triggers exactly one retry against
the flat-file backend; when the flag is clear the flat-file backend is used
directly, a save through it succeeds, and the saved booking is retrieved by
its bookingId afterwards (fresh id, as generated ids are). -/
theorem storage_failover_C4 :
    (∀ (α : Type) (mongoOp jsonOp : Except String α),
      (useStorage true mongoOp jsonOp).2.head? = some Backend.durable) ∧
    (∀ (α : Type) (e : String) (jsonOp : Except String α),
      (useStorage true (Except.error e) jsonOp).2
        = [Backend.durable, Backend.flat]) ∧
    (∀ (α : Type) (mongoOp jsonOp : Except String α),
      (useStorage false mongoOp jsonOp).2 = [Backend.flat]) ∧
    (∀ (file : List StoredBooking) (b : StoredBooking)
        (mongoOp : Except String StoredBooking),
      getBookingJson file b.bookingId = none →
      (useStorage false mongoOp (Except.ok b)).1 = some b ∧
      jsonSaveBooking file b
        = (file ++ [b], some b) ∧
      getBookingJson (jsonSaveBooking file b).1 b.bookingId = some b) := by
  refine ⟨?_, ?_, ?_, ?_⟩
  · intro α mongoOp jsonOp
    cases mongoOp <;> cases jsonOp <;> rfl
  · intro α e jsonOp
    cases jsonOp <;> rfl
  · intro α mongoOp jsonOp
    cases jsonOp <;> rfl
  · intro file b mongoOp hfresh
    refine ⟨rfl, rfl, ?_⟩
    show getBookingJson (file ++ [b]) b.bookingId = some b
    rw [getBookingJson_append_of_none file [b] b.bookingId hfresh]
    simp [getBookingJson]

theorem storage_failover_C4_witness :
    (useStorage true (Except.ok (0 : Nat)) (Except.ok 1)).2.head?
        = some Backend.durable ∧
    getBookingJson [] ("NX1") = none ∧
    getBookingJson
        (jsonSaveBooking []
          ⟨"NX1", "u1", "confirmed", none, none, "t0"⟩).1 ("NX1")
      = some ⟨"NX1", "u1", "confirmed", none, none, "t0"⟩ := by
  refine ⟨(storage_failover_C4.1) Nat (Except.ok 0) (Except.ok 1), rfl, ?_⟩
  exact ((storage_failover_C4.2.2.2) []
    ⟨"NX1", "u1", "confirmed", none, none, "t0"⟩ (Except.ok
      ⟨"NX1", "u1", "confirmed", none, none, "t0"⟩) rfl).2.2

/-- C7 (counterexample): an update that itself carries a userId field
overwrites the stored userId — the update can change it. -/
theorem update_changes_owner_cex_C7 :
    (jsonUpdateBooking [⟨"B1", "alice", "confirmed", none, none, "t0"⟩]
        ("B1") ⟨none, some ("mallory"), none, none, none⟩ ("t1")).1
      = some ⟨"B1", "mallory", "confirmed", none, none, "t1"⟩ ∧
    (jsonUpdateBooking [⟨"B1", "alice", "confirmed", none, none, "t0"⟩]
        ("B1") ⟨none, some ("mallory"), none, none, none⟩ ("t1")).2
      = [⟨"B1", "mallory", "confirmed", none, none, "t1"⟩] ∧
    ("mallory" : String) ≠ "alice" := by
  refine ⟨rfl, rfl, by decide⟩

/-- C7 (amended): for every update that does not itself carry a bookingId or
userId field, updateBooking merges the update and stamps the update time
while every stored bookingId and userId is unchanged; the returned record is
the merge of the found booking. -/
theorem update_preserves_ids_C7 (bs : List StoredBooking) (id : String)
    (u : BookingUpdate) (now : String)
    (hbid : u.bookingId = none) (huid : u.userId = none) :
    ((jsonUpdateBooking bs id u now).2.map
        (fun b => (b.bookingId, b.userId)))
      = bs.map (fun b => (b.bookingId, b.userId)) ∧
    (∀ nb, (jsonUpdateBooking bs id u now).1 = some nb →
      nb.updatedAt = now ∧
      ∃ b, b ∈ bs ∧ b.bookingId = id ∧ nb = applyUpdate b u now) := by
  induction bs with
  | nil => exact ⟨rfl, by intro nb h; cases h⟩
  | cons b rest ih =>
    by_cases hb : (b.bookingId == id) = true
    · refine ⟨?_, ?_⟩
      · simp only [jsonUpdateBooking, hb, if_pos, List.map_cons]
        have : (applyUpdate b u now).bookingId = b.bookingId ∧
            (applyUpdate b u now).userId = b.userId := by
          simp [applyUpdate, hbid, huid]
        simp [this.1, this.2]
      · intro nb h
        simp only [jsonUpdateBooking, hb, if_pos] at h
        cases h
        exact ⟨rfl, b, List.mem_cons_self b rest,
          by exact of_decide_eq_true hb, rfl⟩
    · have hbne : (b.bookingId == id) = false := by
        simp only [Bool.not_eq_true] at hb
        exact hb
      refine ⟨?_, ?_⟩
      · simp only [jsonUpdateBooking, hbne, Bool.false_eq_true, if_neg,
          List.map_cons, not_false_eq_true]
        rw [ih.1]
      · intro nb h
        simp only [jsonUpdateBooking, hbne, Bool.false_eq_true, if_neg,
          not_false_eq_true] at h
        obtain ⟨hu, b2, hmem, hbid2, heq⟩ := ih.2 nb h
        exact ⟨hu, b2, List.mem_cons_of_mem b hmem, hbid2, heq⟩

theorem update_preserves_ids_C7_witness :
    ((jsonUpdateBooking [⟨"B1", "alice", "confirmed", none, none, "t0"⟩]
        ("B1") ⟨none, none, some ("pending"), none, none⟩ ("t1")).2.map
          (fun b => (b.bookingId, b.userId)))
      = [("B1", "alice")] ∧
    (∀ nb, (jsonUpdateBooking [⟨"B1", "alice", "confirmed", none, none, "t0"⟩]
        ("B1") ⟨none, none, some ("pending"), none, none⟩ ("t1")).1 = some nb →
      nb.updatedAt = "t1" ∧
      ∃ b, b ∈ [(⟨"B1", "alice", "confirmed", none, none, "t0"⟩ : StoredBooking)]
        ∧ b.bookingId = "B1" ∧
        nb = applyUpdate b ⟨none, none, some ("pending"), none, none⟩ ("t1")) :=
  update_preserves_ids_C7 [⟨"B1", "alice", "confirmed", none, none, "t0"⟩]
    ("B1") ⟨none, none, some ("pending"), none, none⟩ ("t1") rfl rfl

/-- Helper: when the booking is found, updateBooking merges it in place and
it is still found, merged, afterwards (the update leaves bookingId alone). -/
theorem update_found (bs : List StoredBooking) (id : String)
    (u : BookingUpdate) (now : String) (b : StoredBooking)
    (hfind : getBookingJson bs id = some b) (hbid : u.bookingId = none) :
    (jsonUpdateBooking bs id u now).1 = some (applyUpdate b u now) ∧
    getBookingJson (jsonUpdateBooking bs id u now).2 id
      = some (applyUpdate b u now) := by
  induction bs with
  | nil => cases hfind
  | cons x rest ih =>
    by_cases hx : (x.bookingId == id) = true
    · have hb : x = b := by
        simpa [getBookingJson, hx] using hfind
      subst hb
      have hnewid : (applyUpdate x u now).bookingId = x.bookingId := by
        simp [applyUpdate, hbid]
      constructor
      · simp [jsonUpdateBooking, hx]
      · simp [jsonUpdateBooking, hx, getBookingJson, hnewid]
    · have hxf : (x.bookingId == id) = false := by simpa using hx
      have hfind2 : getBookingJson rest id = some b := by
        simpa [getBookingJson, hxf] using hfind
      obtain ⟨ih1, ih2⟩ := ih hfind2
      constructor
      · simpa [jsonUpdateBooking, hxf] using ih1
      · simpa [jsonUpdateBooking, getBookingJson, hxf] using ih2

/-- C8 (counterexample): cancelling the same booking twice through the
owner, at distinct times, re-stamps cancelledAt — after the second
cancellation the stored metadata differs from the metadata after the first,
so the metadata is not the same both times. -/
theorem cancel_restamps_cex_C8 :
    (deleteBookingRoute [⟨"B1", "alice", "confirmed", none, none, "t0"⟩]
        ("B1") ("alice") ("User cancellation") ("T1")).1
      = CancelOutcome.cancelled ⟨"B1", "alice", "cancelled",
          some ("User cancellation"), some ("T1"), "T1"⟩ ∧
    (deleteBookingRoute
        (deleteBookingRoute [⟨"B1", "alice", "confirmed", none, none, "t0"⟩]
          ("B1") ("alice") ("User cancellation") ("T1")).2
        ("B1") ("alice") ("User cancellation") ("T2")).1
      = CancelOutcome.cancelled ⟨"B1", "alice", "cancelled",
          some ("User cancellation"), some ("T2"), "T2"⟩ ∧
    ("T2" : String) ≠ "T1" := by
  refine ⟨rfl, rfl, by decide⟩

/-- C8 (amended): cancelling twice through the owner yields status cancelled
both times; the cancellation metadata lives in single overwritten fields, so
after the second cancellation cancellationReason and cancelledAt hold the
second request reason and timestamp — they equal the first ones only when
those coincide, and no metadata is duplicated or appended. -/
theorem cancel_twice_C8 (bs : List StoredBooking)
    (id uid r1 r2 t1 t2 : String) (b : StoredBooking)
    (hfind : getBookingJson bs id = some b) (howner : b.userId = uid) :
    ∃ b1 bs1 b2 bs2,
      deleteBookingRoute bs id uid r1 t1 = (CancelOutcome.cancelled b1, bs1) ∧
      deleteBookingRoute bs1 id uid r2 t2 = (CancelOutcome.cancelled b2, bs2) ∧
      b1.status = "cancelled" ∧ b2.status = "cancelled" ∧
      b1.cancellationReason = some r1 ∧ b1.cancelledAt = some t1 ∧
      b2.cancellationReason = some r2 ∧ b2.cancelledAt = some t2 := by
  obtain ⟨h11, h12⟩ := update_found bs id (cancelUpdate r1 t1) t1 b hfind rfl
  have huid : (b.userId == uid) = true := by rw [howner]; simp
  have howner2 : (applyUpdate b (cancelUpdate r1 t1) t1).userId = uid := by
    simp [applyUpdate, cancelUpdate, howner]
  obtain ⟨h21, h22⟩ := update_found (jsonUpdateBooking bs id
    (cancelUpdate r1 t1) t1).2 id (cancelUpdate r2 t2) t2
    (applyUpdate b (cancelUpdate r1 t1) t1) h12 rfl
  have huid2 : ((applyUpdate b (cancelUpdate r1 t1) t1).userId == uid) = true := by
    rw [howner2]; simp
  refine ⟨applyUpdate b (cancelUpdate r1 t1) t1,
    (jsonUpdateBooking bs id (cancelUpdate r1 t1) t1).2,
    applyUpdate (applyUpdate b (cancelUpdate r1 t1) t1) (cancelUpdate r2 t2) t2,
    (jsonUpdateBooking (jsonUpdateBooking bs id (cancelUpdate r1 t1) t1).2
      id (cancelUpdate r2 t2) t2).2, ?_, ?_, rfl, rfl, rfl, rfl, rfl, rfl⟩
  · simp only [deleteBookingRoute, hfind, huid, if_pos]
    rw [h11]
  · simp only [deleteBookingRoute, h12, huid2, if_pos]
    rw [h21]

theorem cancel_twice_C8_witness :
    ∃ b1 bs1 b2 bs2,
      deleteBookingRoute [⟨"B1", "alice", "confirmed", none, none, "t0"⟩]
          ("B1") ("alice") ("r1") ("T1")
        = (CancelOutcome.cancelled b1, bs1) ∧
      deleteBookingRoute bs1 ("B1") ("alice") ("r2") ("T2")
        = (CancelOutcome.cancelled b2, bs2) ∧
      b1.status = "cancelled" ∧ b2.status = "cancelled" ∧
      b1.cancellationReason = some ("r1") ∧ b1.cancelledAt = some ("T1") ∧
      b2.cancellationReason = some ("r2") ∧ b2.cancelledAt = some ("T2") :=
  cancel_twice_C8 [⟨"B1", "alice", "confirmed", none, none, "t0"⟩]
    ("B1") ("alice") ("r1") ("r2") ("T1") ("T2")
    ⟨"B1", "alice", "confirmed", none, none, "t0"⟩ rfl rfl

theorem except_bind_error {α β : Type} (e : String)
    (f : α → Except String β) :
    (Except.error e >>= f : Except String β) = Except.error e := rfl

theorem except_bind_ok {α β : Type} (a : α) (f : α → Except String β) :
    (Except.ok a >>= f : Except String β) = f a := rfl

/-- Helper: a required-field list containing a falsy field makes
checkRequiredFields throw some missing-field error. -/
theorem checkRequired_fails (d : BookingData) (req : List String) (f : String)
    (hmem : f ∈ req) (hf : fieldTruthy d f = false) :
    ∃ msg, checkRequiredFields d req = Except.error msg := by
  induction req with
  | nil => cases hmem
  | cons g rest ih =>
    by_cases hg : fieldTruthy d g = true
    · have hrest : f ∈ rest := by
        rcases List.mem_cons.mp hmem with h | h
        · rw [h] at hf; rw [hg] at hf; cases hf
        · exact h
      obtain ⟨m, hm⟩ := ih hrest
      exact ⟨m, by simp [checkRequiredFields, hg, hm]⟩
    · have hgf : fieldTruthy d g = false := by simpa using hg
      exact ⟨"Missing required field: " ++ g,
        by simp [checkRequiredFields, hgf]⟩

/-- C6 (counterexample): a bus request with every code-required field
present and no seatType validates successfully, the result defaulting
seatType to standard — seatType is not a mandatory bus field, contrary to
the claim. -/
theorem bus_seatType_optional_cex_C6 :
    busNoSeat.seatType = none ∧
    Except.map (fun vb => vb.seatType)
        (validateBooking (dateKey 2026 10 11) busNoSeat)
      = Except.ok (some ("standard")) := by
  exact ⟨rfl, rfl⟩

/-- C6 (amended): the validator enforces the required sets the code
declares — bus requires from, to, date, time, passengers; train adds class;
flight requires from, to, departureDate, passengers, class; seatType is not
among them — and any booking whose declared type misses one of its required
fields fails validation. -/
theorem required_fields_C6 (todayKey : Nat) (d : BookingData) (f : String) :
    (d.type = some ("bus") →
      f ∈ ["from", "to", "date", "time", "passengers"] →
      fieldTruthy d f = false →
      (validateBooking todayKey d).isOk = false) ∧
    (d.type = some ("train") →
      f ∈ ["from", "to", "date", "time", "passengers", "class"] →
      fieldTruthy d f = false →
      (validateBooking todayKey d).isOk = false) ∧
    (d.type = some ("flight") →
      f ∈ ["from", "to", "departureDate", "passengers", "class"] →
      fieldTruthy d f = false →
      (validateBooking todayKey d).isOk = false) := by
  refine ⟨?_, ?_, ?_⟩ <;> intro ht hmem hf <;>
    obtain ⟨m, hm⟩ := checkRequired_fails d _ f hmem hf <;>
    simp [validateBooking, ht, validateBusBooking, validateTrainBooking,
      validateFlightBooking, hm, except_bind_error, Except.isOk,
      Except.toBool]

theorem required_fields_C6_witness :
    (validateBooking (dateKey 2026 10 11) flightNoDep).isOk = false ∧
    (validateBooking (dateKey 2026 10 11) busNoTime).isOk = false :=
  ⟨(required_fields_C6 (dateKey 2026 10 11) flightNoDep
      ("departureDate")).2.2 rfl (by decide) rfl,
   (required_fields_C6 (dateKey 2026 10 11) busNoTime ("time")).1
      rfl (by decide) rfl⟩

/-- C10: validateDate rejects every parseable date strictly before the
current day with the fixed past-date error and every unparseable string with
the invalid-format error; an accepted date is returned normalized to
YYYY-MM-DD; and a bus booking with all required fields present but a past
date fails validation with the past-date error. -/
theorem date_validation_C10 (todayKey : Nat) (s out : String) (y m d : Nat) :
    (parseISODate s = some (y, m, d) → dateKey y m d < todayKey →
      validateDate todayKey s
        = Except.error ("Booking date cannot be in the past")) ∧
    (parseISODate s = none →
      validateDate todayKey s
        = Except.error ("Invalid date format: " ++ s)) ∧
    (validateDate todayKey s = Except.ok out →
      ∃ y2 m2 d2, parseISODate s = some (y2, m2, d2) ∧
        todayKey ≤ dateKey y2 m2 d2 ∧ out = formatDate y2 m2 d2) ∧
    (∀ dd : BookingData, dd.type = some ("bus") →
      checkRequiredFields dd ["from", "to", "date", "time", "passengers"]
        = Except.ok () →
      parseISODate (dd.date.getD "") = some (y, m, d) →
      dateKey y m d < todayKey →
      validateBooking todayKey dd
        = Except.error ("Booking date cannot be in the past")) := by
  refine ⟨?_, ?_, ?_, ?_⟩
  · intro hp hlt
    simp [validateDate, hp, hlt]
  · intro hp
    simp [validateDate, hp]
  · intro hok
    cases hp : parseISODate s with
    | none => simp [validateDate, hp] at hok
    | some t =>
      obtain ⟨y2, m2, d2⟩ := t
      by_cases hlt : dateKey y2 m2 d2 < todayKey
      · simp [validateDate, hp, hlt] at hok
      · have hout : out = formatDate y2 m2 d2 := by
          simp [validateDate, hp, hlt] at hok
          exact hok.symm
        exact ⟨y2, m2, d2, rfl, by omega, hout⟩
  · intro dd htype hreq hp hlt
    have hdate : validateDate todayKey (dd.date.getD "")
        = Except.error ("Booking date cannot be in the past") := by
      simp [validateDate, hp, hlt]
    simp [validateBooking, htype, validateBusBooking, hreq, hdate,
      except_bind_error, except_bind_ok]

theorem date_validation_C10_witness :
    validateDate (dateKey 2026 10 11) ("2020-01-01")
      = Except.error ("Booking date cannot be in the past") ∧
    validateDate (dateKey 2026 10 11) ("not-a-date")
      = Except.error ("Invalid date format: " ++ "not-a-date") ∧
    (∃ y2 m2 d2, parseISODate ("2026-12-01") = some (y2, m2, d2) ∧
      dateKey 2026 10 11 ≤ dateKey y2 m2 d2 ∧
      ("2026-12-01" : String) = formatDate y2 m2 d2) ∧
    validateBooking (dateKey 2026 10 11) busPastDate
      = Except.error ("Booking date cannot be in the past") :=
  ⟨(date_validation_C10 (dateKey 2026 10 11) ("2020-01-01") ("")
      2020 1 1).1 rfl (by decide),
   (date_validation_C10 (dateKey 2026 10 11) ("not-a-date") ("")
      0 0 0).2.1 rfl,
   (date_validation_C10 (dateKey 2026 10 11) ("2026-12-01") ("2026-12-01")
      0 0 0).2.2.1 rfl,
   (date_validation_C10 (dateKey 2026 10 11) ("") ("") 2020 1 1).2.2.2
      busPastDate rfl rfl rfl (by decide)⟩

end NeuraX

